import Mathlib

/-!
Verification of the Conta-Azul automation scripts.

This file shallowly embeds the parts of `conta_azul_cr.py` and
`financial_events_sync.py` that the specification talks about:

* JSON values exchanged with the Conta Azul API (`Json`, `Record`);
* the paginated fetch loop `fetch_all` of `financial_events_sync.py`
  (pages are supplied by an oracle `pages : Nat → Json` standing for the
  remote endpoint; a `fuel` argument makes the `while True` loop a total
  function, with `none` marking fuel exhaustion so that termination is a
  provable statement rather than an assumption);
* the OAuth helpers `refresh`, `exchange_code` and `get_access_token` of
  `conta_azul_cr.py` (network responses, the clock and the token file are
  supplied by an `Oracle`; token-file writes and the number of network
  calls are returned explicitly so that frame claims can be stated);
* the SQLite sink `ensure_table` / `insert_records` of `conta_azul_cr.py`
  (the database is the committed table state; commits are counted);
* the spreadsheet sink `normalise_value` / `records_to_rows` of
  `financial_events_sync.py`, including Python's `json.dumps` with
  `ensure_ascii=False` restricted to the values representable here.

Machine integers do not occur; Python ints are unbounded and are modelled
by `Int`.  `time.time()` returns a float, modelled by an integer clock,
which is faithful for every comparison the scripts perform.
-/

namespace ContaAzul

/-- JSON values, as produced by `response.json()` / `json.load`. -/
inductive Json where
  | null
  | bool (b : Bool)
  | num (n : Int)
  | str (s : String)
  | arr (items : List Json)
  | obj (fields : List (String × Json))

/-- A Python dict with string keys, i.e. one decoded JSON object. -/
abbrev Record := List (String × Json)

/-- Dict field access `d[k]` / `"k" in d`, `none` when `d` is not a dict. -/
def jGet : Json → String → Option Json
  | .obj fields, k => fields.lookup k
  | _, _ => none

/-- `isinstance(v, dict)`. -/
def jIsObj : Json → Bool
  | .obj _ => true
  | _ => false

/-- `isinstance(v, list)`. -/
def jIsArr : Json → Bool
  | .arr _ => true
  | _ => false

/-- The numeric value of a JSON value in a Python arithmetic/comparison
context: numbers are themselves, `True`/`False` are `1`/`0`, everything
else raises `TypeError` (`none`). -/
def jNum : Json → Option Int
  | .num n => some n
  | .bool b => some (if b then 1 else 0)
  | _ => none

/-- Python truthiness of a decoded JSON value. -/
def pyTruthy : Json → Bool
  | .null => false
  | .bool b => b
  | .num n => n != 0
  | .str s => !s.isEmpty
  | .arr items => !items.isEmpty
  | .obj fields => !fields.isEmpty

/-- `d.get(k, default)`. -/
def pyGetD (d : Record) (k : String) (default : Json) : Json :=
  (d.lookup k).getD default

/-- `d[k] = v` on a Python dict: update in place when the key exists
(keeping its position), append at the end otherwise. -/
def setKey : Record → String → Json → Record
  | [], k, v => [(k, v)]
  | (k0, v0) :: rest, k, v =>
      if k0 = k then (k, v) :: rest else (k0, v0) :: setKey rest k v

/-- `v > now` for `v` a decoded JSON value and `now` the clock, as in
`tokens.get("expires_at", 0) > time.time()`; `none` is a `TypeError`. -/
def pyGt (v : Json) (now : Int) : Option Bool :=
  (jNum v).map (fun n => decide (now < n))

/-- `int(s)` on a Python string: optional surrounding whitespace, an
optional sign, then decimal digits with single underscores allowed
between digit groups. -/
def pyIntOfStr (s : String) : Option Int :=
  let t := s.trim
  let sign : Int := if t.startsWith "-" then -1 else 1
  let digits := if t.startsWith "-" || t.startsWith "+" then t.drop 1 else t
  let groups := digits.splitOn "_"
  if groups.all (fun g => !g.isEmpty && g.all Char.isDigit) then
    match (digits.replace "_" "").toNat? with
    | some n => some (sign * n)
    | none => none
  else none

/-- `int(v)` on a decoded JSON value, as in `int(payload["itens_totais"])`;
`none` is the `TypeError`/`ValueError` Python raises when the value is
not coercible to an integer. -/
def pyInt : Json → Option Int
  | .num n => some n
  | .bool b => some (if b then 1 else 0)
  | .str s => pyIntOfStr s
  | _ => none

/-! ### Paginated fetcher (`financial_events_sync.py`) -/

/-- `PAGE_SIZE` constant of `financial_events_sync.py`. -/
def PAGE_SIZE : Nat := 100

/-- Errors `fetch_all` can raise: `ApiError` (the spec's `ApiShapeError`)
with its message, or the `int()` conversion error on `itens_totais`. -/
inductive FetchErr where
  | apiError (msg : String)
  | intError

/-- The `for item in items` loop of `fetch_all`: every item must be a
dict, otherwise `ApiError` is raised; dict items are collected in
response order. -/
def checkItems : List Json → Except FetchErr (List Record)
  | [] => .ok []
  | .obj fields :: rest => (checkItems rest).map (fields :: ·)
  | _ :: _ => .error (.apiError "Cada item retornado deve ser um objeto JSON")

/-- The body of one iteration of `fetch_all` up to the stop test
(`financial_events_sync.py` lines 135-156): shape-check the payload,
coerce `itens_totais`, and validate/collect the items. -/
def processPage (payload : Json) : Except FetchErr (List Record × Int) :=
  match payload with
  | .obj fields =>
      match fields.lookup "itens", fields.lookup "itens_totais" with
      | none, _ =>
          .error (.apiError "Resposta inesperada: campo \x27itens\x27 ausente")
      | some _, none =>
          .error (.apiError "Resposta inesperada: campo \x27itens_totais\x27 ausente")
      | some itemsJ, some totalJ =>
          match itemsJ with
          | .arr items =>
              match pyInt totalJ with
              | none => .error .intError
              | some total => (checkItems items).map (fun recs => (recs, total))
          | _ => .error (.apiError "Campo \x27itens\x27 deve ser uma lista")
  | _ =>
      .error (.apiError "Resposta inesperada: objeto JSON deve ser um dicionário")

/-- Outcome of a `fetch_all` run: the page numbers requested, in order,
and the result — `none` when the fuel ran out before the loop stopped,
otherwise the collected records or the raised error. -/
structure FetchResult where
  requests : List Nat
  result : Option (Except FetchErr (List Record))

/-- The `while True` loop of `fetch_all` (`financial_events_sync.py`
lines 126-161), one recursive step per page request.  `totalExpected` is
`total_expected` (captured from the first page), `collected` the
accumulator. -/
def fetchAllAux (pages : Nat → Json) :
    Nat → Nat → List Record → Option Int → FetchResult
  | 0, _, _, _ => ⟨[], none⟩
  | fuel + 1, page, collected, totalExpected =>
      match processPage (pages page) with
      | .error e => ⟨[page], some (.error e)⟩
      | .ok (items, total) =>
          if ((collected ++ items).length : Int) ≥ totalExpected.getD total
              ∨ items.isEmpty then
            ⟨[page], some (.ok (collected ++ items))⟩
          else
            ⟨page ::
              (fetchAllAux pages fuel (page + 1) (collected ++ items)
                (some (totalExpected.getD total))).requests,
              (fetchAllAux pages fuel (page + 1) (collected ++ items)
                (some (totalExpected.getD total))).result⟩

/-- `fetch_all` of `financial_events_sync.py`: start at page 1 with an
empty accumulator and no captured total. -/
def fetch_all (pages : Nat → Json) (fuel : Nat) : FetchResult :=
  fetchAllAux pages fuel 1 [] none

/-- The response-shape violations the specification lists for
`fetch_all`: not a JSON object, missing `itens`, missing `itens_totais`,
`itens` not a list, or some item not an object — the last case stated
for payloads whose `itens_totais` is coercible by `int()`, because the
coercion runs before the item check does. -/
def shapeViolation (p : Json) : Prop :=
  jIsObj p = false ∨
  jGet p "itens" = none ∨
  jGet p "itens_totais" = none ∨
  (∃ v, jGet p "itens" = some v ∧ jIsArr v = false) ∨
  (∃ l t, jGet p "itens" = some (.arr l) ∧ jGet p "itens_totais" = some t ∧
    (pyInt t).isSome = true ∧ ∃ x ∈ l, jIsObj x = false)

/-! ### OAuth token lifecycle (`conta_azul_cr.py`) -/

/-- Errors of the token code paths: the error `raise_for_status` raises
on an HTTP error response (the spec's `TokenExchangeError`, carrying the
status code and the response body), a Python `TypeError`, a `KeyError`,
and the `SystemExit` raised when no authorization code is available
(its message, the authorization URL, is not tracked). -/
inductive AuthErr where
  | tokenExchangeError (status : Nat) (body : Json)
  | typeError
  | keyError (key : String)
  | systemExit

/-- The environment a `get_access_token` run observes: the parsed token
file (`none` when the file does not exist), the clock, the token
endpoint's response (status code and decoded body) to a refresh and to a
code-exchange POST, and the `CONTA_AZUL_AUTH_CODE` environment
variable. -/
structure Oracle where
  file : Option Record
  now : Int
  refreshResp : Nat × Json
  exchangeResp : Nat × Json
  authCode : Option String

/-- `OAuthHandler.refresh` (`conta_azul_cr.py` lines 80-94): POST to the
token endpoint, `raise_for_status` (which raises exactly for statuses
400-599), set `expires_at = time.time() + tokens.get("expires_in", 0)`,
persist the whole new record.  Returns the result together with the list
of token-file writes performed. -/
def refresh (o : Oracle) : Except AuthErr Record × List Record :=
  let status := o.refreshResp.1
  let body := o.refreshResp.2
  if 400 ≤ status ∧ status < 600 then
    (.error (.tokenExchangeError status body), [])
  else
    match body with
    | .obj fields =>
        match jNum (pyGetD fields "expires_in" (.num 0)) with
        | some ei =>
            (.ok (setKey fields "expires_at" (.num (o.now + ei))),
             [setKey fields "expires_at" (.num (o.now + ei))])
        | none => (.error .typeError, [])
    | _ => (.error .typeError, [])

/-- `OAuthHandler.exchange_code` (`conta_azul_cr.py` lines 63-78):
structurally identical to `refresh`, answering the code-exchange POST. -/
def exchange_code (o : Oracle) : Except AuthErr Record × List Record :=
  let status := o.exchangeResp.1
  let body := o.exchangeResp.2
  if 400 ≤ status ∧ status < 600 then
    (.error (.tokenExchangeError status body), [])
  else
    match body with
    | .obj fields =>
        match jNum (pyGetD fields "expires_in" (.num 0)) with
        | some ei =>
            (.ok (setKey fields "expires_at" (.num (o.now + ei))),
             [setKey fields "expires_at" (.num (o.now + ei))])
        | none => (.error .typeError, [])
    | _ => (.error .typeError, [])

/-- Outcome of `get_access_token`: the returned access token value (or
the raised error), the token-file writes, and how many refresh and
code-exchange network calls were made. -/
structure AuthResult where
  result : Except AuthErr Json
  writes : List Record
  refreshCalls : Nat
  exchangeCalls : Nat

/-- The tail of `get_access_token` (`conta_azul_cr.py` lines 152-159):
read `CONTA_AZUL_AUTH_CODE` (absent or empty is falsy, raising
`SystemExit` with the authorization URL), else exchange the code and
return the new access token. -/
def codeExchangePath (o : Oracle) : AuthResult :=
  if o.authCode.getD "" = "" then ⟨.error .systemExit, [], 0, 0⟩
  else
    match exchange_code o with
    | (.ok tokens, w) =>
        match tokens.lookup "access_token" with
        | some a => ⟨.ok a, w, 0, 1⟩
        | none => ⟨.error (.keyError "access_token"), w, 0, 1⟩
    | (.error e, w) => ⟨.error e, w, 0, 1⟩

/-- `get_access_token` (`conta_azul_cr.py` lines 143-159).  `if tokens:`
is Python truthiness, so an empty stored dict falls through to the
code-exchange path exactly as an absent file does. -/
def get_access_token (o : Oracle) : AuthResult :=
  match o.file with
  | none => codeExchangePath o
  | some tokens =>
      if tokens.isEmpty then codeExchangePath o
      else
        match pyGt (pyGetD tokens "expires_at" (.num 0)) o.now with
        | none => ⟨.error .typeError, [], 0, 0⟩
        | some true =>
            match tokens.lookup "access_token" with
            | some a => ⟨.ok a, [], 0, 0⟩
            | none => ⟨.error (.keyError "access_token"), [], 0, 0⟩
        | some false =>
            if pyTruthy (pyGetD tokens "refresh_token" .null) then
              match refresh o with
              | (.ok newTokens, w) =>
                  match newTokens.lookup "access_token" with
                  | some a => ⟨.ok a, w, 1, 0⟩
                  | none => ⟨.error (.keyError "access_token"), w, 1, 0⟩
              | (.error e, w) => ⟨.error e, w, 1, 0⟩
            else codeExchangePath o

/-! ### SQLite table sink (`conta_azul_cr.py`) -/

/-- The `CR` table: its column names and its rows (cells are the stored
JSON values, `.null` for SQL NULL). -/
abbrev Table := List String × List (List Json)

/-- `ensure_table` (`conta_azul_cr.py` lines 116-125): keep an existing
table, otherwise create it with one column per key of the sample
record. -/
def ensure_table : Option Table → Record → Table
  | some t, _ => t
  | none, sample => (sample.map Prod.fst, [])

/-- Outcome of `insert_records`: the final table state and the number of
`conn.commit()` calls. -/
structure SinkResult where
  table : Option Table
  commits : Nat

/-- `insert_records` (`conta_azul_cr.py` lines 128-140): no-op on an
empty list; otherwise ensure the table exists (schema from the first
record), read the actual column list back, insert one row per record in
input order with `record.get(col)` per cell (`NULL` when absent), and
commit once after the batch. -/
def insert_records : Option Table → List Record → SinkResult
  | db, [] => ⟨db, 0⟩
  | db, r :: rs =>
      let t := ensure_table db r
      ⟨some (t.1,
          t.2 ++ (r :: rs).map (fun rec => t.1.map (fun c => (rec.lookup c).getD .null))),
        1⟩

/-! ### Spreadsheet sink (`financial_events_sync.py`) -/

/-- One character of `json.dumps` string output with
`ensure_ascii=False`: escape the quote, the backslash and control
characters, pass everything else through. -/
def escapeChar (c : Char) : String :=
  if c = '"' then "\\\""
  else if c = '\\' then "\\\\"
  else if c = '\n' then "\\n"
  else if c = '\t' then "\\t"
  else if c = '\r' then "\\r"
  else if c = '\x08' then "\\b"
  else if c = '\x0c' then "\\f"
  else if c.toNat < 32 then
    let d := fun n => if n < 10 then Char.ofNat (48 + n) else Char.ofNat (87 + n)
    String.mk ['\\', 'u', '0', '0', d (c.toNat / 16), d (c.toNat % 16)]
  else String.singleton c

/-- A `json.dumps` string literal. -/
def escapeString (s : String) : String :=
  "\"" ++ s.foldl (fun acc c => acc ++ escapeChar c) "" ++ "\""

mutual

/-- `json.dumps(v, ensure_ascii=False)` with the default separators. -/
def jsonDumps : Json → String
  | .null => "null"
  | .bool true => "true"
  | .bool false => "false"
  | .num n => toString n
  | .str s => escapeString s
  | .arr items => "[" ++ dumpsList items ++ "]"
  | .obj fields => "\x7b" ++ dumpsFields fields ++ "\x7d"

/-- Comma-joined array elements of `json.dumps`. -/
def dumpsList : List Json → String
  | [] => ""
  | [x] => jsonDumps x
  | x :: y :: rest => jsonDumps x ++ ", " ++ dumpsList (y :: rest)

/-- Comma-joined object members of `json.dumps`. -/
def dumpsFields : List (String × Json) → String
  | [] => ""
  | [(k, v)] => escapeString k ++ ": " ++ jsonDumps v
  | (k, v) :: p :: rest =>
      escapeString k ++ ": " ++ jsonDumps v ++ ", " ++ dumpsFields (p :: rest)

end

/-- `normalise_value` (`financial_events_sync.py` lines 166-171):
`None` becomes the empty string, dicts and lists their JSON text form,
scalars pass through unchanged. -/
def normalise_value : Json → Json
  | .null => .str ""
  | .arr items => .str (jsonDumps (.arr items))
  | .obj fields => .str (jsonDumps (.obj fields))
  | v => v

/-- The column-collection loop of `records_to_rows`
(`financial_events_sync.py` lines 184-188): the union of all records'
keys in first-seen order. -/
def collectColumns (records : List Record) : List String :=
  records.foldl
    (fun cols r =>
      r.foldl (fun cols kv => if kv.1 ∈ cols then cols else cols ++ [kv.1]) cols)
    []

/-- `records_to_rows` (`financial_events_sync.py` lines 183-194): when
the key union is empty, a `raw_json` placeholder header with each
record's JSON dump on its own row; otherwise the column header followed
by one normalised row per record, `record.get(column)` per cell. -/
def records_to_rows (records : List Record) : List (List Json) :=
  let columns := collectColumns records
  if columns.isEmpty then
    [Json.str "raw_json"] :: records.map (fun r => [Json.str (jsonDumps (.obj r))])
  else
    columns.map Json.str ::
      records.map (fun r =>
        columns.map (fun c => normalise_value ((r.lookup c).getD .null)))

/-! ## Lemmas about one step of the fetch loop -/

/-- When the current page raises, the loop stops with that error after
this single request. -/
theorem fetchAllAux_step_error (pages : Nat → Json) (fuel page : Nat)
    (collected : List Record) (totalExpected : Option Int) (e : FetchErr)
    (hp : processPage (pages page) = .error e) :
    fetchAllAux pages (fuel + 1) page collected totalExpected =
      ⟨[page], some (.error e)⟩ := by
  simp only [fetchAllAux, hp]

/-- When the stop condition holds after folding in the current page, the
loop returns the accumulated records. -/
theorem fetchAllAux_step_stop (pages : Nat → Json) (fuel page : Nat)
    (collected : List Record) (totalExpected : Option Int)
    (items : List Record) (total : Int)
    (hp : processPage (pages page) = .ok (items, total))
    (hstop : ((collected ++ items).length : Int) ≥ totalExpected.getD total
      ∨ items.isEmpty = true) :
    fetchAllAux pages (fuel + 1) page collected totalExpected =
      ⟨[page], some (.ok (collected ++ items))⟩ := by
  simp only [fetchAllAux, hp]
  rw [if_pos hstop]

/-- When the stop condition fails, the loop recurses on the next page. -/
theorem fetchAllAux_step_continue (pages : Nat → Json) (fuel page : Nat)
    (collected : List Record) (totalExpected : Option Int)
    (items : List Record) (total : Int)
    (hp : processPage (pages page) = .ok (items, total))
    (hlt : ((collected ++ items).length : Int) < totalExpected.getD total)
    (hne : items.isEmpty = false) :
    fetchAllAux pages (fuel + 1) page collected totalExpected =
      ⟨page :: (fetchAllAux pages fuel (page + 1) (collected ++ items)
          (some (totalExpected.getD total))).requests,
        (fetchAllAux pages fuel (page + 1) (collected ++ items)
          (some (totalExpected.getD total))).result⟩ := by
  have hcond : ¬(((collected ++ items).length : Int) ≥ totalExpected.getD total
      ∨ items.isEmpty = true) := by
    rw [not_or]
    exact ⟨not_le.mpr hlt, by simp [hne]⟩
  simp only [fetchAllAux, hp]
  rw [if_neg hcond]

/-! ## Claim theorems -/

/-- Claim C1: when the first page declares a total of 250 and pages 1-3
return 100, 100 and 50 items, `fetch_all` issues exactly the three page
requests 1, 2, 3 and returns the 250 items concatenated in response
order. -/
theorem fetch_all_three_pages (pages : Nat → Json) (i1 i2 i3 : List Record)
    (t2 t3 : Int) (fuel : Nat)
    (h1 : processPage (pages 1) = .ok (i1, 250))
    (h2 : processPage (pages 2) = .ok (i2, t2))
    (h3 : processPage (pages 3) = .ok (i3, t3))
    (l1 : i1.length = PAGE_SIZE) (l2 : i2.length = PAGE_SIZE)
    (l3 : i3.length = 50) (hf : 3 ≤ fuel) :
    fetch_all pages fuel = ⟨[1, 2, 3], some (.ok (i1 ++ i2 ++ i3))⟩ ∧
      (i1 ++ i2 ++ i3).length = 250 := by
  have hlen : (i1 ++ i2 ++ i3).length = 250 := by
    simp [l1, l2, l3, PAGE_SIZE]
  refine ⟨?_, hlen⟩
  obtain ⟨f, rfl⟩ : ∃ f, fuel = f + 3 := ⟨fuel - 3, by omega⟩
  have e1 : i1.isEmpty = false := by
    cases i1 with
    | nil => simp [PAGE_SIZE] at l1
    | cons a l => rfl
  have e2 : i2.isEmpty = false := by
    cases i2 with
    | nil => simp [PAGE_SIZE] at l2
    | cons a l => rfl
  show fetchAllAux pages (f + 3) 1 [] none = _
  rw [show f + 3 = f + 2 + 1 from rfl,
    fetchAllAux_step_continue pages (f + 2) 1 [] none i1 250 h1
      (by simp [l1, PAGE_SIZE]) e1]
  simp only [List.nil_append, Option.getD_none]
  rw [show f + 2 = f + 1 + 1 from rfl,
    fetchAllAux_step_continue pages (f + 1) 2 i1 (some 250) i2 t2 h2
      (by simp [l1, l2, PAGE_SIZE]) e2]
  simp only [Option.getD_some]
  rw [fetchAllAux_step_stop pages f 3 (i1 ++ i2) (some 250) i3 t3 h3
      (by left; simp [l1, l2, l3, PAGE_SIZE])]

set_option maxRecDepth 4000 in
/-- Witness for C1 at a concrete response stream: pages of 100, 100 and
50 empty-object items with a declared total of 250. -/
theorem fetch_all_three_pages_witness :
    fetch_all
        (fun p =>
          Json.obj [("itens",
              Json.arr (List.replicate (if p = 1 ∨ p = 2 then 100 else 50) (Json.obj []))),
            ("itens_totais", Json.num 250)]) 3 =
      ⟨[1, 2, 3], some (.ok (List.replicate 250 ([] : Record)))⟩ := by
  have h := fetch_all_three_pages
    (fun p =>
      Json.obj [("itens",
          Json.arr (List.replicate (if p = 1 ∨ p = 2 then 100 else 50) (Json.obj []))),
        ("itens_totais", Json.num 250)])
    (List.replicate 100 []) (List.replicate 100 []) (List.replicate 50 [])
    250 250 3 (by rfl) (by rfl) (by rfl) (by rfl) (by rfl) (by rfl) (by omega)
  rw [h.1]
  rfl

/-- On a stream whose every page passes the shape checks, the loop
reaches the stop condition before running out of fuel, provided the fuel
covers the distance from the accumulated length to the captured total:
every non-final page contributes at least one item. -/
theorem fetchAllAux_terminates (pages : Nat → Json)
    (hwf : ∀ p, ∃ items total, processPage (pages p) = .ok (items, total)) :
    ∀ (n page : Nat) (collected : List Record) (t : Int),
      t.toNat ≤ collected.length + n →
      ∃ records,
        (fetchAllAux pages (n + 1) page collected (some t)).result =
          some (.ok records) := by
  intro n
  induction n with
  | zero =>
      intro page collected t hb
      obtain ⟨items, total, hp⟩ := hwf page
      have hstop : ((collected ++ items).length : Int) ≥ (some t).getD total
          ∨ items.isEmpty = true := by
        left
        simp only [Option.getD_some, List.length_append]
        omega
      rw [fetchAllAux_step_stop pages 0 page collected (some t) items total hp hstop]
      exact ⟨collected ++ items, rfl⟩
  | succ m ih =>
      intro page collected t hb
      obtain ⟨items, total, hp⟩ := hwf page
      by_cases hstop : ((collected ++ items).length : Int) ≥ (some t).getD total
          ∨ items.isEmpty = true
      · rw [fetchAllAux_step_stop pages (m + 1) page collected (some t) items total
          hp hstop]
        exact ⟨collected ++ items, rfl⟩
      · rw [not_or] at hstop
        obtain ⟨hlt, hne⟩ := hstop
        have hne2 : items.isEmpty = false := by
          cases h : items.isEmpty
          · rfl
          · exact absurd h hne
        rw [fetchAllAux_step_continue pages (m + 1) page collected (some t) items total
          hp (not_le.mp hlt) hne2]
        have hitems : 1 ≤ items.length := by
          cases items with
          | nil => simp at hne2
          | cons a l => simp
        exact ih (page + 1) (collected ++ items) t
          (by simp only [List.length_append]; omega)

/-- Claim C2: for every well-shaped response stream the `fetch_all` loop
terminates with the accumulated records and no error.  Moreover, from
any reached loop state it stops at the very page whose `itens` array is
empty (returning the accumulated records without error even when the
declared total was not reached), and at the very page at which the
accumulated length reaches the total captured from the first page. -/
theorem fetch_all_terminates (pages : Nat → Json)
    (hwf : ∀ p, ∃ items total, processPage (pages p) = .ok (items, total)) :
    (∃ fuel records,
        (fetch_all pages fuel).result = some (.ok records)) ∧
    (∀ (fuel page : Nat) (collected : List Record) (totalExpected : Option Int)
        (items : List Record) (total : Int),
      processPage (pages page) = .ok (items, total) → items.isEmpty = true →
      fetchAllAux pages (fuel + 1) page collected totalExpected =
        ⟨[page], some (.ok (collected ++ items))⟩) ∧
    (∀ (fuel page : Nat) (collected : List Record) (t : Int)
        (items : List Record) (total : Int),
      processPage (pages page) = .ok (items, total) →
      ((collected ++ items).length : Int) ≥ t →
      fetchAllAux pages (fuel + 1) page collected (some t) =
        ⟨[page], some (.ok (collected ++ items))⟩) := by
  refine ⟨?_, ?_, ?_⟩
  · obtain ⟨i1, t1, h1⟩ := hwf 1
    by_cases hstop : ((([] : List Record) ++ i1).length : Int) ≥ (none : Option Int).getD t1
        ∨ i1.isEmpty = true
    · refine ⟨1, [] ++ i1, ?_⟩
      rw [show fetch_all pages 1 = fetchAllAux pages (0 + 1) 1 [] none from rfl,
        fetchAllAux_step_stop pages 0 1 [] none i1 t1 h1 hstop]
    · rw [not_or] at hstop
      obtain ⟨hlt, hne⟩ := hstop
      have hne2 : i1.isEmpty = false := by
        cases h : i1.isEmpty
        · rfl
        · exact absurd h hne
      obtain ⟨records, hr⟩ := fetchAllAux_terminates pages hwf t1.toNat 2 i1 t1
        (by omega)
      refine ⟨t1.toNat + 2, records, ?_⟩
      rw [show fetch_all pages (t1.toNat + 2)
            = fetchAllAux pages (t1.toNat + 1 + 1) 1 [] none from rfl,
        fetchAllAux_step_continue pages (t1.toNat + 1) 1 [] none i1 t1 h1
          (not_le.mp hlt) hne2]
      simp only [List.nil_append, Option.getD_none]
      exact hr
  · intro fuel page collected totalExpected items total hp he
    exact fetchAllAux_step_stop pages fuel page collected totalExpected items total hp
      (Or.inr he)
  · intro fuel page collected t items total hp hge
    exact fetchAllAux_step_stop pages fuel page collected (some t) items total hp
      (Or.inl (by simpa using hge))

/-- Witness for C2 at a concrete well-shaped stream: every page carries
an empty `itens` array and a declared total of 0. -/
theorem fetch_all_terminates_witness :
    ∃ fuel records,
      (fetch_all
          (fun _ => Json.obj [("itens", Json.arr []), ("itens_totais", Json.num 0)])
          fuel).result = some (.ok records) :=
  (fetch_all_terminates
    (fun _ => Json.obj [("itens", Json.arr []), ("itens_totais", Json.num 0)])
    (fun _ => ⟨[], 0, rfl⟩)).1

/-- The item loop raises `ApiError` whenever some item is not a dict. -/
theorem checkItems_error (l : List Json) (hx : ∃ x ∈ l, jIsObj x = false) :
    ∃ msg, checkItems l = .error (.apiError msg) := by
  induction l with
  | nil => simp at hx
  | cons a rest ih =>
      cases a with
      | obj fields =>
          obtain ⟨x, hmem, hxo⟩ := hx
          rcases List.mem_cons.mp hmem with h | h
          · subst h
            simp [jIsObj] at hxo
          · obtain ⟨msg, hmsg⟩ := ih ⟨x, h, hxo⟩
            exact ⟨msg, by simp [checkItems, hmsg, Except.map]⟩
      | null => exact ⟨_, rfl⟩
      | bool b => exact ⟨_, rfl⟩
      | num n => exact ⟨_, rfl⟩
      | str s => exact ⟨_, rfl⟩
      | arr items => exact ⟨_, rfl⟩

/-- Every listed shape violation makes `processPage` raise `ApiError`. -/
theorem processPage_violation (p : Json) (hv : shapeViolation p) :
    ∃ msg, processPage p = .error (.apiError msg) := by
  cases p with
  | obj fields =>
      rcases hv with h | h | h | h | h
      · simp [jIsObj] at h
      · simp only [jGet] at h
        exact ⟨"Resposta inesperada: campo \x27itens\x27 ausente",
          by simp [processPage, h]⟩
      · simp only [jGet] at h
        cases hit : fields.lookup "itens" with
        | none =>
            exact ⟨"Resposta inesperada: campo \x27itens\x27 ausente",
              by simp [processPage, hit]⟩
        | some v =>
            exact ⟨"Resposta inesperada: campo \x27itens_totais\x27 ausente",
              by simp [processPage, hit, h]⟩
      · obtain ⟨v, hv1, hv2⟩ := h
        simp only [jGet] at hv1
        cases hto : fields.lookup "itens_totais" with
        | none =>
            exact ⟨"Resposta inesperada: campo \x27itens_totais\x27 ausente",
              by simp [processPage, hv1, hto]⟩
        | some t =>
            cases v with
            | arr items => simp [jIsArr] at hv2
            | null =>
                exact ⟨"Campo \x27itens\x27 deve ser uma lista",
                  by simp [processPage, hv1, hto]⟩
            | bool b =>
                exact ⟨"Campo \x27itens\x27 deve ser uma lista",
                  by simp [processPage, hv1, hto]⟩
            | num n =>
                exact ⟨"Campo \x27itens\x27 deve ser uma lista",
                  by simp [processPage, hv1, hto]⟩
            | str s =>
                exact ⟨"Campo \x27itens\x27 deve ser uma lista",
                  by simp [processPage, hv1, hto]⟩
            | obj g =>
                exact ⟨"Campo \x27itens\x27 deve ser uma lista",
                  by simp [processPage, hv1, hto]⟩
      · obtain ⟨l, t, h1, h2, h3, h4⟩ := h
        simp only [jGet] at h1 h2
        obtain ⟨tv, htv⟩ := Option.isSome_iff_exists.mp h3
        obtain ⟨msg, hmsg⟩ := checkItems_error l h4
        exact ⟨msg, by simp [processPage, h1, h2, htv, hmsg, Except.map]⟩
  | null => exact ⟨_, rfl⟩
  | bool b => exact ⟨_, rfl⟩
  | num n => exact ⟨_, rfl⟩
  | str s => exact ⟨_, rfl⟩
  | arr items => exact ⟨_, rfl⟩

/-- Claim C7 (amended): a response that is not a JSON object, or lacks
`itens`, or lacks `itens_totais`, or whose `itens` is not a list, or —
provided its `itens_totais` is coercible to an integer — one of whose
items is not an object, makes the loop fail with `ApiError` at whatever
page the loop reaches it, from any loop state; in particular when the
malformed response is the first page, `fetch_all` fails after that
single request, before any record is accumulated. -/
theorem fetch_all_shape_error (pages : Nat → Json) :
    (∀ (fuel page : Nat) (collected : List Record) (totalExpected : Option Int),
      shapeViolation (pages page) →
      ∃ msg, fetchAllAux pages (fuel + 1) page collected totalExpected =
        ⟨[page], some (.error (.apiError msg))⟩) ∧
    (∀ fuel : Nat, 1 ≤ fuel → shapeViolation (pages 1) →
      ∃ msg, fetch_all pages fuel = ⟨[1], some (.error (.apiError msg))⟩) := by
  constructor
  · intro fuel page collected totalExpected hv
    obtain ⟨msg, hmsg⟩ := processPage_violation (pages page) hv
    exact ⟨msg,
      fetchAllAux_step_error pages fuel page collected totalExpected _ hmsg⟩
  · intro fuel hf hv
    obtain ⟨f, rfl⟩ : ∃ f, fuel = f + 1 := ⟨fuel - 1, by omega⟩
    obtain ⟨msg, hmsg⟩ := processPage_violation (pages 1) hv
    exact ⟨msg, fetchAllAux_step_error pages f 1 [] none _ hmsg⟩

/-- Witness for C7: a page missing `itens_totais`, hit both mid-loop (at
page 2, with a record already accumulated) and as the first page. -/
theorem fetch_all_shape_error_witness :
    (∃ msg, fetchAllAux (fun _ => Json.obj [("itens", Json.arr [])]) 1 2
        [[("id", Json.num 1)]] (some 5) =
      ⟨[2], some (.error (.apiError msg))⟩) ∧
    (∃ msg, fetch_all (fun _ => Json.obj [("itens", Json.arr [])]) 1 =
      ⟨[1], some (.error (.apiError msg))⟩) :=
  ⟨(fetch_all_shape_error (fun _ => Json.obj [("itens", Json.arr [])])).1 0 2
      [[("id", Json.num 1)]] (some 5) (Or.inr (Or.inr (Or.inl rfl))),
    (fetch_all_shape_error (fun _ => Json.obj [("itens", Json.arr [])])).2 1
      (by omega) (Or.inr (Or.inr (Or.inl rfl)))⟩

/-- Counterexample to C7 as stated: on a first page with a non-object
item but a non-coercible `itens_totais` (here `null`), `fetch_all` fails
with the `int()` conversion error, not with `ApiError`. -/
theorem fetch_all_shape_error_counterexample :
    (∃ x ∈ [Json.num 1], jIsObj x = false) ∧
    fetch_all
        (fun _ =>
          Json.obj [("itens", Json.arr [Json.num 1]), ("itens_totais", Json.null)])
        1 = ⟨[1], some (.error .intError)⟩ ∧
    ∀ msg, FetchErr.intError = FetchErr.apiError msg → False :=
  ⟨⟨Json.num 1, by simp, rfl⟩, rfl, fun _ h => FetchErr.noConfusion h⟩

/-- Looking up the key a dict assignment just set yields the new value. -/
theorem lookup_setKey_self (r : Record) (k : String) (v : Json) :
    (setKey r k v).lookup k = some v := by
  induction r with
  | nil => simp [setKey, List.lookup]
  | cons p rest ih =>
      obtain ⟨k0, v0⟩ := p
      by_cases h : k0 = k
      · simp [setKey, h, List.lookup]
      · have hb : (k == k0) = false := beq_eq_false_iff_ne.mpr (Ne.symm h)
        simp [setKey, h, List.lookup, hb, ih]

/-- A dict assignment leaves every other key's lookup unchanged. -/
theorem lookup_setKey_ne (r : Record) (k k2 : String) (v : Json) (h : k ≠ k2) :
    (setKey r k2 v).lookup k = r.lookup k := by
  have hb2 : (k == k2) = false := beq_eq_false_iff_ne.mpr h
  induction r with
  | nil => simp [setKey, List.lookup, hb2]
  | cons p rest ih =>
      obtain ⟨k0, v0⟩ := p
      by_cases h0 : k0 = k2
      · subst h0
        simp [setKey, List.lookup, hb2]
      · by_cases hk : k = k0
        · subst hk
          simp [setKey, h0, List.lookup]
        · have hb0 : (k == k0) = false := beq_eq_false_iff_ne.mpr hk
          simp [setKey, h0, List.lookup, hb0, ih]

/-- Claim C3: with a stored token whose `expires_at` lies strictly in
the future, `get_access_token` returns the stored access token
unchanged, with no refresh call, no code-exchange call, and no write to
the token file. -/
theorem get_access_token_fast_path (o : Oracle) (t : Record) (e : Int) (a : Json)
    (hf : o.file = some t)
    (he : t.lookup "expires_at" = some (.num e))
    (hfresh : o.now < e)
    (ha : t.lookup "access_token" = some a) :
    get_access_token o = ⟨.ok a, [], 0, 0⟩ := by
  have hne : t.isEmpty = false := by
    cases t with
    | nil => simp [List.lookup] at he
    | cons p rest => rfl
  simp [get_access_token, hf, hne, pyGetD, he, pyGt, jNum, hfresh, ha]

/-- Witness for C3 at a concrete oracle. -/
theorem get_access_token_fast_path_witness :
    get_access_token
        ⟨some [("access_token", Json.str "tok"), ("expires_at", Json.num 100)],
          50, (200, Json.null), (200, Json.null), none⟩ =
      ⟨.ok (Json.str "tok"), [], 0, 0⟩ :=
  get_access_token_fast_path
    ⟨some [("access_token", Json.str "tok"), ("expires_at", Json.num 100)],
      50, (200, Json.null), (200, Json.null), none⟩
    [("access_token", Json.str "tok"), ("expires_at", Json.num 100)]
    100 (Json.str "tok") rfl rfl (by decide) rfl

/-- Claim C4: with a stored token that is not in the future and a
truthy refresh token, `get_access_token` makes exactly one refresh call
and no code-exchange call, the server's token set — with `expires_at`
recomputed as `now + expires_in` — is the single record written to the
token file (no field of the old record is merged in), and its
`access_token` is returned. -/
theorem get_access_token_refresh_path (o : Oracle) (t : Record) (fields : Record)
    (ei : Int) (a : Json) (st : Nat)
    (hf : o.file = some t) (hne : t.isEmpty = false)
    (hexp : pyGt (pyGetD t "expires_at" (.num 0)) o.now = some false)
    (hrt : pyTruthy (pyGetD t "refresh_token" .null) = true)
    (hresp : o.refreshResp = (st, .obj fields))
    (hst : ¬(400 ≤ st ∧ st < 600))
    (hei : fields.lookup "expires_in" = some (.num ei))
    (ha : fields.lookup "access_token" = some a) :
    get_access_token o =
      ⟨.ok a, [setKey fields "expires_at" (.num (o.now + ei))], 1, 0⟩ := by
  have hr : refresh o =
      (.ok (setKey fields "expires_at" (.num (o.now + ei))),
        [setKey fields "expires_at" (.num (o.now + ei))]) := by
    simp [refresh, hresp, hst, pyGetD, hei, jNum]
  have hra : (setKey fields "expires_at" (.num (o.now + ei))).lookup "access_token"
      = some a := by
    rw [lookup_setKey_ne fields "access_token" "expires_at" _ (by decide)]
    exact ha
  simp [get_access_token, hf, hne, hexp, hrt, hr, hra]

/-- Witness for C4 at a concrete oracle: the stored record is wholly
replaced, its old refresh token discarded. -/
theorem get_access_token_refresh_path_witness :
    get_access_token
        ⟨some [("access_token", Json.str "old"), ("expires_at", Json.num 10),
            ("refresh_token", Json.str "r1")],
          100,
          (200, Json.obj [("access_token", Json.str "new"),
            ("refresh_token", Json.str "r2"), ("expires_in", Json.num 3600)]),
          (200, Json.null), none⟩ =
      ⟨.ok (Json.str "new"),
        [[("access_token", Json.str "new"), ("refresh_token", Json.str "r2"),
          ("expires_in", Json.num 3600), ("expires_at", Json.num 3700)]],
        1, 0⟩ :=
  get_access_token_refresh_path
    ⟨some [("access_token", Json.str "old"), ("expires_at", Json.num 10),
        ("refresh_token", Json.str "r1")],
      100,
      (200, Json.obj [("access_token", Json.str "new"),
        ("refresh_token", Json.str "r2"), ("expires_in", Json.num 3600)]),
      (200, Json.null), none⟩
    [("access_token", Json.str "old"), ("expires_at", Json.num 10),
      ("refresh_token", Json.str "r1")]
    [("access_token", Json.str "new"), ("refresh_token", Json.str "r2"),
      ("expires_in", Json.num 3600)]
    3600 (Json.str "new") 200 rfl rfl rfl rfl rfl (by decide) rfl rfl

/-- Claim C8 (amended): an HTTP response with a 4xx or 5xx status to the
refresh or code-exchange POST makes the operation fail with the token
exchange error carrying the status code and the response body, and the
token file is not written.  (Statuses outside 400-599 do not raise.) -/
theorem token_endpoint_http_error (o : Oracle) (st : Nat) (b : Json)
    (h4 : 400 ≤ st) (h6 : st < 600) :
    (o.refreshResp = (st, b) →
      refresh o = (.error (.tokenExchangeError st b), [])) ∧
    (o.exchangeResp = (st, b) →
      exchange_code o = (.error (.tokenExchangeError st b), [])) := by
  constructor
  · intro h
    simp [refresh, h, h4, h6]
  · intro h
    simp [exchange_code, h, h4, h6]

/-- Witness for C8 at concrete error responses. -/
theorem token_endpoint_http_error_witness :
    refresh ⟨none, 0, (500, Json.str "erro"), (503, Json.str "fora"), none⟩ =
      (.error (.tokenExchangeError 500 (Json.str "erro")), []) ∧
    exchange_code ⟨none, 0, (500, Json.str "erro"), (503, Json.str "fora"), none⟩ =
      (.error (.tokenExchangeError 503 (Json.str "fora")), []) :=
  ⟨(token_endpoint_http_error _ 500 (Json.str "erro") (by omega) (by omega)).1 rfl,
    (token_endpoint_http_error _ 503 (Json.str "fora") (by omega) (by omega)).2 rfl⟩

/-- Counterexample to C8 as stated: a 304 response is not 2xx, yet
`raise_for_status` does not raise for it, so the refresh succeeds and
the token file IS written. -/
theorem token_endpoint_non2xx_counterexample :
    ¬(200 ≤ 304 ∧ 304 < 300) ∧
    refresh ⟨none, 100,
        (304, Json.obj [("access_token", Json.str "a"), ("expires_in", Json.num 60)]),
        (200, Json.null), none⟩ =
      (.ok [("access_token", Json.str "a"), ("expires_in", Json.num 60),
          ("expires_at", Json.num 160)],
        [[("access_token", Json.str "a"), ("expires_in", Json.num 60),
          ("expires_at", Json.num 160)]]) :=
  ⟨by omega, rfl⟩

/-- Claim C9: a stored record lacking `expires_at` is treated as already
expired: the missing value defaults to 0, which never beats a
non-negative clock, so the expiry guard of `get_access_token` is false
for every such record and its access token is never returned via the
fast path — with a truthy refresh token the run goes through the refresh
branch (one refresh call, the refresh outcome's writes), without one and
without an auth code it falls through to `SystemExit`.  And a
token-endpoint response lacking `expires_in` gets `expires_at = now`, so
the persisted record fails the expiry test at every later instant. -/
theorem expiry_default_semantics :
    (∀ (t : Record) (now : Int),
      t.lookup "expires_at" = none → 0 ≤ now →
      pyGt (pyGetD t "expires_at" (.num 0)) now = some false) ∧
    (∀ (o : Oracle) (t : Record),
      o.file = some t → t.isEmpty = false →
      t.lookup "expires_at" = none → 0 ≤ o.now →
      pyTruthy (pyGetD t "refresh_token" .null) = true →
      (get_access_token o).refreshCalls = 1 ∧
        (get_access_token o).exchangeCalls = 0 ∧
        (get_access_token o).writes = (refresh o).2) ∧
    (∀ (o : Oracle) (t : Record),
      o.file = some t → t.isEmpty = false →
      t.lookup "expires_at" = none → 0 ≤ o.now →
      t.lookup "refresh_token" = none → o.authCode = none →
      get_access_token o = ⟨.error .systemExit, [], 0, 0⟩) ∧
    (∀ (o : Oracle) (fields : Record) (st : Nat),
      o.refreshResp = (st, .obj fields) → ¬(400 ≤ st ∧ st < 600) →
      fields.lookup "expires_in" = none →
      refresh o = (.ok (setKey fields "expires_at" (.num o.now)),
        [setKey fields "expires_at" (.num o.now)])) ∧
    (∀ (o : Oracle) (fields : Record) (st : Nat),
      o.exchangeResp = (st, .obj fields) → ¬(400 ≤ st ∧ st < 600) →
      fields.lookup "expires_in" = none →
      exchange_code o = (.ok (setKey fields "expires_at" (.num o.now)),
        [setKey fields "expires_at" (.num o.now)])) ∧
    (∀ (fields : Record) (now now2 : Int), now ≤ now2 →
      pyGt (pyGetD (setKey fields "expires_at" (.num now)) "expires_at" (.num 0))
        now2 = some false) := by
  refine ⟨?_, ?_, ?_, ?_, ?_, ?_⟩
  · intro t now hea hnow
    simp [pyGetD, hea, pyGt, jNum, decide_eq_false (by omega : ¬(now < 0))]
  · intro o t hf hne hea hnow hrt
    have hg : pyGt (pyGetD t "expires_at" (.num 0)) o.now = some false := by
      simp [pyGetD, hea, pyGt, jNum, decide_eq_false (by omega : ¬(o.now < 0))]
    rcases hrr : refresh o with ⟨res, w⟩
    cases res with
    | ok newTokens =>
        cases hla : newTokens.lookup "access_token" with
        | none =>
            refine ⟨?_, ?_, ?_⟩ <;>
              simp [get_access_token, hf, hne, hg, hrt, hrr, hla]
        | some a =>
            refine ⟨?_, ?_, ?_⟩ <;>
              simp [get_access_token, hf, hne, hg, hrt, hrr, hla]
    | error e =>
        refine ⟨?_, ?_, ?_⟩ <;>
          simp [get_access_token, hf, hne, hg, hrt, hrr]
  · intro o t hf hne hea hnow hrt hac
    have hd : decide (o.now < 0) = false := decide_eq_false (by omega)
    simp [get_access_token, hf, hne, pyGetD, hea, pyGt, jNum, hd, pyTruthy, hrt,
      codeExchangePath, hac]
  · intro o fields st hresp hst hei
    simp [refresh, hresp, hst, pyGetD, hei, jNum]
  · intro o fields st hresp hst hei
    simp [exchange_code, hresp, hst, pyGetD, hei, jNum]
  · intro fields now now2 hle
    rw [pyGetD, lookup_setKey_self]
    simp [pyGt, jNum, decide_eq_false (by omega : ¬(now2 < now))]

/-- Witness for C9 at concrete inputs, one per conjunct; the second runs
a record that lacks `expires_at` but holds a refresh token through the
refresh branch. -/
theorem expiry_default_semantics_witness :
    pyGt (pyGetD [("access_token", Json.str "tok")] "expires_at" (Json.num 0)) 5
      = some false ∧
    ((get_access_token
        ⟨some [("access_token", Json.str "old"), ("refresh_token", Json.str "r")],
          5, (200, Json.obj [("access_token", Json.str "new"),
            ("expires_in", Json.num 10)]),
          (200, Json.null), none⟩).refreshCalls = 1 ∧
      (get_access_token
        ⟨some [("access_token", Json.str "old"), ("refresh_token", Json.str "r")],
          5, (200, Json.obj [("access_token", Json.str "new"),
            ("expires_in", Json.num 10)]),
          (200, Json.null), none⟩).exchangeCalls = 0 ∧
      (get_access_token
        ⟨some [("access_token", Json.str "old"), ("refresh_token", Json.str "r")],
          5, (200, Json.obj [("access_token", Json.str "new"),
            ("expires_in", Json.num 10)]),
          (200, Json.null), none⟩).writes =
        (refresh
          ⟨some [("access_token", Json.str "old"), ("refresh_token", Json.str "r")],
            5, (200, Json.obj [("access_token", Json.str "new"),
              ("expires_in", Json.num 10)]),
            (200, Json.null), none⟩).2) ∧
    get_access_token
        ⟨some [("access_token", Json.str "tok")], 5,
          (200, Json.null), (200, Json.null), none⟩ =
      ⟨.error .systemExit, [], 0, 0⟩ ∧
    refresh ⟨none, 7, (200, Json.obj [("access_token", Json.str "n")]),
        (200, Json.null), none⟩ =
      (.ok [("access_token", Json.str "n"), ("expires_at", Json.num 7)],
        [[("access_token", Json.str "n"), ("expires_at", Json.num 7)]]) ∧
    exchange_code ⟨none, 7, (200, Json.null),
        (200, Json.obj [("access_token", Json.str "n")]), none⟩ =
      (.ok [("access_token", Json.str "n"), ("expires_at", Json.num 7)],
        [[("access_token", Json.str "n"), ("expires_at", Json.num 7)]]) ∧
    pyGt (pyGetD (setKey [] "expires_at" (Json.num 7)) "expires_at" (Json.num 0)) 9
      = some false :=
  ⟨expiry_default_semantics.1 [("access_token", Json.str "tok")] 5 rfl (by decide),
    expiry_default_semantics.2.1
      ⟨some [("access_token", Json.str "old"), ("refresh_token", Json.str "r")],
        5, (200, Json.obj [("access_token", Json.str "new"),
          ("expires_in", Json.num 10)]),
        (200, Json.null), none⟩
      [("access_token", Json.str "old"), ("refresh_token", Json.str "r")]
      rfl rfl rfl (by decide) rfl,
    expiry_default_semantics.2.2.1
      ⟨some [("access_token", Json.str "tok")], 5,
        (200, Json.null), (200, Json.null), none⟩
      [("access_token", Json.str "tok")] rfl rfl rfl (by decide) rfl rfl,
    expiry_default_semantics.2.2.2.1
      ⟨none, 7, (200, Json.obj [("access_token", Json.str "n")]),
        (200, Json.null), none⟩
      [("access_token", Json.str "n")] 200 rfl (by decide) rfl,
    expiry_default_semantics.2.2.2.2.1
      ⟨none, 7, (200, Json.null),
        (200, Json.obj [("access_token", Json.str "n")]), none⟩
      [("access_token", Json.str "n")] 200 rfl (by decide) rfl,
    expiry_default_semantics.2.2.2.2.2 [] 7 9 (by decide)⟩

/-- Claim C5: on the two sample records with no pre-existing table, the
table sink takes its columns `(a, b)` from the first record only, drops
the second record's `c` value, stores NULL for its missing `b`, inserts
both rows in input order and commits once after the batch. -/
theorem insert_records_first_record_schema :
    insert_records none
        [[("a", .str "1"), ("b", .str "2")], [("a", .str "3"), ("c", .str "4")]] =
      ⟨some (["a", "b"], [[.str "1", .str "2"], [.str "3", .null]]), 1⟩ := by
  rfl

/-- Claim C10: on the empty record list `insert_records` is a no-op — it
neither creates the table, nor inserts a row, nor commits, and leaves
the database state unchanged. -/
theorem insert_records_empty_noop (db : Option Table) :
    insert_records db [] = ⟨db, 0⟩ := rfl

/-- Witness for C10 at a concrete database state. -/
theorem insert_records_empty_noop_witness :
    insert_records none [] = ⟨none, 0⟩ :=
  insert_records_empty_noop none

/-- Claim C6 (amended): for every non-empty record list whose key union
is non-empty, the spreadsheet sink writes the union of all keys in
first-seen order as the header, then one row per record in input order,
each cell `normalise_value` of `record.get(column)` — empty string for
null or absent, JSON text for objects and arrays, scalars unchanged.  On
the two sample records the header is `[a, b, c]` and the second row is
`["3", "", "4"]`. -/
theorem records_to_rows_union_header :
    (∀ records : List Record, records ≠ [] → collectColumns records ≠ [] →
      records_to_rows records =
        (collectColumns records).map Json.str ::
          records.map (fun r =>
            (collectColumns records).map
              (fun c => normalise_value ((r.lookup c).getD .null)))) ∧
    records_to_rows
        [[("a", .str "1"), ("b", .str "2")], [("a", .str "3"), ("c", .str "4")]] =
      [[.str "a", .str "b", .str "c"],
        [.str "1", .str "2", .str ""],
        [.str "3", .str "", .str "4"]] := by
  constructor
  · intro records hne hcols
    have h : (collectColumns records).isEmpty = false := by
      cases hc : collectColumns records with
      | nil => exact absurd hc hcols
      | cons a l => rfl
    simp [records_to_rows, h]
  · rfl

/-- Witness for C6 on two single-key records with distinct keys. -/
theorem records_to_rows_union_header_witness :
    records_to_rows [[("a", Json.str "1")], [("b", Json.str "2")]] =
      [[Json.str "a", Json.str "b"],
        [Json.str "1", Json.str ""],
        [Json.str "", Json.str "2"]] := by
  rw [records_to_rows_union_header.1 [[("a", Json.str "1")], [("b", Json.str "2")]]
    (List.cons_ne_nil _ _) (by decide)]
  rfl

/-- Counterexample to C6 as stated: on the non-empty record list `[{}]`
the key union is empty, and the sink writes the `raw_json` placeholder
header with the record's JSON dump, not the (empty) union header. -/
theorem records_to_rows_placeholder_counterexample :
    records_to_rows [[]] = [[Json.str "raw_json"], [Json.str "\x7b\x7d"]] ∧
    collectColumns [[]] = [] ∧
    [Json.str "raw_json"] ≠ (collectColumns [[]]).map Json.str := by
  refine ⟨rfl, rfl, fun h => ?_⟩
  rw [show collectColumns [[]] = [] from rfl] at h
  exact List.cons_ne_nil _ _ h

end ContaAzul
